import Mathlib

/-!
Verification of the ELITA-1 IoT dashboard's telemetry and command-control
subsystem. Definitions are shallow embeddings of the JavaScript sources:

* `src/frontend/src/utils/api.js` — the transport client (`sendCommand`);
* `SecurityControls` — the immobilize / resume panel (button guards,
  `handleClick`, the rendered engine-status line);
* `BikeMap` — the GPS marker / "No GPS fix yet" rendering decision;
* `BikeStatusDisplay` — tire-pressure conversion, placeholder and
  warning-threshold logic;
* `App.js` — `handleLockToggle` / `handleEngineToggle` on the dashboard
  state object;
* the Poller of spec §4.2, which has no implementation in the sources and
  is modelled from the spec's words (see the doc comments there).

JavaScript numbers are modelled as exact rationals (`Rat`): none of the
verified properties depends on IEEE-754 rounding of the raw readings, and
`toFixed(1)` is modelled as exact decimal rounding to one place.
-/

namespace Elita

/-! ## Transport client (src/frontend/src/utils/api.js)

`sendCommand(action, baseUrl)` posts `{action}` with axios and returns
`res.data`; any rejection of the axios promise is caught and mapped to
the literal object `{ status: 'error', message: 'Network or server error' }`.
Axios rejects on network failure / timeout and on a non-2xx status code
(default `validateStatus`); a resolved 2xx response yields its body
verbatim, even when that body is not a well-formed
`{ status, message? }` object (axios does not validate the payload).
-/

/-- A response body as the JavaScript sees it: either a well-formed
`{ status: string, message?: string }` object, or any other (malformed)
payload, carried as its raw text. -/
inductive Body where
  | outcome (status : String) (message : Option String)
  | malformed (raw : String)
deriving DecidableEq, Repr

/-- How the transport resolved one request: the axios promise either
resolved with a 2xx response carrying a body, rejected because of a
non-success (non-2xx) HTTP status code — the rejection still carries the
controller's response body — or rejected because of a network failure or
timeout, with no response at all. -/
inductive TransportResult where
  | resolved (body : Body)
  | rejectedHttp (code : Nat) (body : Body)
  | rejectedNet
deriving DecidableEq, Repr

/-- Embedding of `sendCommand` from `api.js`: return `res.data` when the
promise resolves, and the fixed error object from the `catch` block on any
rejection. The `action` only forms the request; it does not influence how
the response is mapped. -/
def sendCommand (action : String) (r : TransportResult) : Body :=
  match action, r with
  | _, .resolved b => b
  | _, .rejectedHttp _ _ => .outcome "error" (some "Network or server error")
  | _, .rejectedNet => .outcome "error" (some "Network or server error")

/-- Whether a result value carries an error status, i.e. is a well-formed
body whose `status` field is the string `"error"`. -/
def hasErrorStatus : Body → Bool
  | .outcome s _ => s == "error"
  | .malformed _ => false

/-- The `message` field of a result value, when it is a well-formed body
that has one. -/
def bodyMessage : Body → Option String
  | .outcome _ m => m
  | .malformed _ => none

/-! ## SecurityControls component

State of the component is the single `busy` flag (`useState(false)`);
`immobilized` is read from the `bikeData` prop
(`const immobilized = !!bikeData.immobilization_status`). The immobilize
button carries `disabled={busy || immobilized}` and the resume button
`disabled={busy || !immobilized}`; a disabled button fires no click, so a
request attempt while its guard holds performs nothing. An accepted click
runs `handleClick(action)`: `setBusy(true)`, `await sendCommand(action)`,
and in a `finally` block `setBusy(false)`. The value returned by
`sendCommand` is discarded — the component stores and renders no message
derived from it. -/

/-- The two command actions of the panel. -/
inductive Action where
  | immobilize
  | resume
deriving DecidableEq, Repr

/-- The wire name of an action, as passed to `sendCommand`. -/
def actionName : Action → String
  | .immobilize => "immobilize"
  | .resume => "resume"

/-- Guard of the immobilize button: `disabled={busy || immobilized}`. -/
def immobilizeDisabled (busy immobilized : Bool) : Bool :=
  busy || immobilized

/-- Guard of the resume button: `disabled={busy || !immobilized}`. -/
def resumeDisabled (busy immobilized : Bool) : Bool :=
  busy || !immobilized

/-- Observable effect of one click attempt once it has fully resolved:
the final `busy` flag, the list of network calls made (actions passed to
`sendCommand`), and the failure message surfaced to the user, if any. -/
structure ClickEffect where
  finalBusy : Bool
  callsMade : List Action
  surfaced : Option String
deriving DecidableEq, Repr

/-- Embedding of one click attempt on a button of `SecurityControls`,
resolved to completion with the transport behaving as `r`. A click on a
disabled button does nothing. An accepted click performs exactly one
`sendCommand` call, discards its result, and clears `busy` in the
`finally` block; the component never surfaces a message. -/
def securityClick (busy immobilized : Bool) (b : Action) (r : TransportResult) :
    ClickEffect :=
  match b with
  | .immobilize =>
    if immobilizeDisabled busy immobilized then
      { finalBusy := busy, callsMade := [], surfaced := none }
    else
      let _outcome := sendCommand (actionName .immobilize) r
      { finalBusy := false, callsMade := [.immobilize], surfaced := none }
  | .resume =>
    if resumeDisabled busy immobilized then
      { finalBusy := busy, callsMade := [], surfaced := none }
    else
      let _outcome := sendCommand (actionName .resume) r
      { finalBusy := false, callsMade := [.resume], surfaced := none }

/-- The component's only piece of state is `busy`: it holds no optimistic
immobilization field, so the optimistic override of spec §4.3 is constantly
absent in the code. -/
def securityOptimisticImmobilized : Option Bool := none

/-- The immobilization value the component displays, from
`const immobilized = !!bikeData.immobilization_status`: always the current
snapshot's value, whatever the `busy` state. -/
def displayedImmobilized (busy bikeImmobilized : Bool) : Bool :=
  match busy with
  | _ => bikeImmobilized

/-! ## Telemetry snapshot (the `bikeData` object)

Field set of the status payload (see the mock in the sources and spec §6):
`engine_temp_c`, `battery_voltage`, `tire_pressure_kpa`, `moving`,
`gps_lat`, `gps_lon`, `immobilization_status`, `timestamp`. The numeric
sensor readings may be `null`/absent (`Option`), and the GPS coordinates
explicitly may be `null`. -/

/-- One telemetry snapshot, as consumed by the presentation components. -/
structure BikeData where
  engine_temp_c : Option Rat
  battery_voltage : Option Rat
  tire_pressure_kpa : Option Rat
  moving : Bool
  gps_lat : Option Rat
  gps_lon : Option Rat
  immobilization_status : Bool
  timestamp : Int
deriving DecidableEq, Repr

/-! ## BikeMap component

`if (!bikeData) return null;` then
`const hasLocation = lat != null && lon != null;` — the marker (inside the
`MapContainer`) is rendered at `[lat, lon]` exactly when `hasLocation`,
and otherwise the `"No GPS fix yet"` div is rendered instead. -/

/-- What the `BikeMap` component renders. -/
inductive MapView where
  | marker (lat lon : Rat)
  | noFix
  | empty
deriving DecidableEq, Repr

/-- Embedding of the `BikeMap` rendering decision. -/
def bikeMapRender (bd : Option BikeData) : MapView :=
  match bd with
  | none => .empty
  | some b =>
    match b.gps_lat, b.gps_lon with
    | some lat, some lon => .marker lat lon
    | some _, none => .noFix
    | none, _ => .noFix

/-! ## BikeStatusDisplay component

`const tirePressurePsi = tirePressureKpa ? (tirePressureKpa * 0.1450377).toFixed(1) : null;`
— a falsy reading (absent or `0`) yields `null`, which renders as the
placeholder; otherwise the kPa value is converted and rounded to one
decimal place. The warn class is
`tirePressurePsi != null && (tirePressurePsi < 28 || tirePressurePsi > 40)`;
the comparison coerces the `toFixed` string back to its numeric value, so
the thresholds are applied to the rounded value. -/

/-- The kPa-to-PSI conversion factor `0.1450377` of the source, exact. -/
def kpaToPsi : Rat := 1450377 / 10000000

/-- Rounding to one decimal place, as `toFixed(1)` performs on the value. -/
def roundTo1 (q : Rat) : Rat := ((round (q * 10) : Int) : Rat) / 10

/-- Embedding of the `tirePressurePsi` computation: `none` is the `null`
that renders as the placeholder. -/
def tirePressurePsi (tp : Option Rat) : Option Rat :=
  match tp with
  | none => none
  | some v => if v = 0 then none else some (roundTo1 (v * kpaToPsi))

/-- Embedding of the `tireClass` computation. -/
def tireClass (tp : Option Rat) : String :=
  match tirePressurePsi tp with
  | none => "ok"
  | some p => if p < 28 ∨ p > 40 then "warn" else "ok"

/-! ## App.js dashboard state and the two toggles

`handleLockToggle` and `handleEngineToggle` each rebuild the state with
object spreads, replacing exactly one field of `security`:
`{ ...p, security: { ...p.security, status: p.security.status === 'Locked' ? 'Unlocked' : 'Locked' } }`
and likewise for `engine` with `'On'`/`'Off'`. The other top-level fields
(`liveStatus`, `location`, `serviceAdvisor`, `predictiveMaintenance`) are
presentation data the toggles never touch; they are carried here as type
parameters so the frame property is proved for any contents. -/

/-- The `security` sub-object of the dashboard state. -/
structure Security where
  status : String
  engine : String
deriving DecidableEq, Repr

/-- The dashboard state object held in the `data` `useState`. -/
structure DashboardState (L M A P : Type) where
  liveStatus : L
  location : M
  security : Security
  serviceAdvisor : A
  predictiveMaintenance : P

/-- Embedding of `handleLockToggle`. -/
def handleLockToggle {L M A P : Type} (s : DashboardState L M A P) :
    DashboardState L M A P :=
  { s with
    security :=
      { s.security with
        status := if s.security.status = "Locked" then "Unlocked" else "Locked" } }

/-- Embedding of `handleEngineToggle`. -/
def handleEngineToggle {L M A P : Type} (s : DashboardState L M A P) :
    DashboardState L M A P :=
  { s with
    security :=
      { s.security with
        engine := if s.security.engine = "On" then "Off" else "On" } }

/-! ## Poller (spec §4.2) -/

/-- Modelled from the spec: the Poller component of §4.2 is not present in
the sources (the repository ships the transport client and the
presentation components only), so its staleness policy is taken from the
spec's words — a newly fetched snapshot is accepted only if its timestamp
is greater than or equal to the last accepted snapshot's. -/
def pollerAccept (last : Option BikeData) (s : BikeData) : Bool :=
  match last with
  | none => true
  | some l => decide (l.timestamp ≤ s.timestamp)

/-- Modelled from the spec: one successful fetch handled by the missing
Poller. An accepted snapshot becomes the last accepted snapshot and is
published (second component `some s`); a stale one is silently dropped —
no publication, prior snapshot still current. -/
def pollerStep (last : Option BikeData) (s : BikeData) :
    Option BikeData × Option BikeData :=
  if pollerAccept last s then (some s, some s) else (last, none)

/-- Modelled from the spec: the missing Poller run over a whole sequence of
fetched snapshots, in delivery order; returns the final last-accepted
snapshot and the list of published snapshots. -/
def pollerRun (last : Option BikeData) : List BikeData → Option BikeData × List BikeData
  | [] => (last, [])
  | s :: rest =>
    let st := pollerStep last s
    let out := pollerRun st.1 rest
    (out.1, st.2.toList ++ out.2)

/-- Modelled from the spec: the two modes of the missing Poller's state
machine (§4.2), `Idle` and `Polling`. -/
inductive PollerMode where
  | idle
  | polling
deriving DecidableEq, Repr

/-- Modelled from the spec: the events driving the missing Poller's state
machine — explicit start, a timer tick whose fetch either succeeded or
failed, and explicit stop. -/
inductive PollerEvent where
  | start
  | tick (success : Bool)
  | stop
deriving DecidableEq, Repr

/-- Modelled from the spec: the missing Poller's transition function.
`Idle -> Polling` on start; `Polling -> Polling` on every tick regardless
of success or failure; `Polling -> Idle` on explicit stop; no other
transition changes the mode. -/
def pollerModeStep : PollerMode → PollerEvent → PollerMode
  | .idle, .start => .polling
  | .idle, .tick _ => .idle
  | .idle, .stop => .idle
  | .polling, .start => .polling
  | .polling, .tick _ => .polling
  | .polling, .stop => .idle

/-! ## Concrete snapshots used by witnesses -/

/-- A snapshot carrying only a timestamp (3) — witness material. -/
def snapEarly : BikeData :=
  { engine_temp_c := none, battery_voltage := none, tire_pressure_kpa := none,
    moving := false, gps_lat := none, gps_lon := none,
    immobilization_status := false, timestamp := 3 }

/-- A snapshot carrying only a timestamp (7) — witness material. -/
def snapLate : BikeData :=
  { engine_temp_c := none, battery_voltage := none, tire_pressure_kpa := none,
    moving := false, gps_lat := none, gps_lon := none,
    immobilization_status := false, timestamp := 7 }

/-- A snapshot with a GPS fix — witness material. -/
def snapWithFix : BikeData :=
  { engine_temp_c := none, battery_voltage := none, tire_pressure_kpa := none,
    moving := false, gps_lat := some 37, gps_lon := some (-122),
    immobilization_status := false, timestamp := 0 }

/-! ## Helper lemmas for the Poller run -/

lemma pollerRun_cons (st : Option BikeData) (s : BikeData) (rest : List BikeData) :
    pollerRun st (s :: rest) =
      if pollerAccept st s then
        ((pollerRun (some s) rest).1, s :: (pollerRun (some s) rest).2)
      else pollerRun st rest := by
  cases h : pollerAccept st s <;> simp [pollerRun, pollerStep, h]

lemma pollerRun_spec (l : List BikeData) :
    ∀ st : Option BikeData,
      List.Chain' (fun a b => a.timestamp ≤ b.timestamp) (pollerRun st l).2 ∧
      ∀ last, st = some last → ∀ p ∈ (pollerRun st l).2, last.timestamp ≤ p.timestamp := by
  induction l with
  | nil =>
    intro st
    simp [pollerRun]
  | cons s rest ih =>
    intro st
    rw [pollerRun_cons]
    by_cases h : pollerAccept st s = true
    · rw [if_pos h]
      obtain ⟨hchain, hbound⟩ := ih (some s)
      refine ⟨?_, ?_⟩
      · exact List.chain'_cons'.mpr
          ⟨fun b hb => hbound s rfl b (List.mem_of_mem_head? hb), hchain⟩
      · intro last hlast p hp
        subst hlast
        have hts : last.timestamp ≤ s.timestamp := by
          simpa [pollerAccept] using h
        rcases List.mem_cons.mp hp with rfl | hp2
        · exact hts
        · exact le_trans hts (hbound s rfl p hp2)
    · rw [if_neg h]
      exact ih st

/-! ## Claim theorems -/

/-- Claim C1: for every sequence of fetch results delivered to the Poller,
possibly out of order, the snapshots the Poller publishes have
non-decreasing `timestampUnixSeconds`; every published snapshot's timestamp
is at least the last accepted snapshot's, and a newly fetched snapshot
whose timestamp is below the last accepted one's is silently dropped (no
publication) while the prior snapshot remains current. -/
theorem poller_publishes_monotone :
    (∀ (st : Option BikeData) (l : List BikeData),
        List.Chain' (fun a b => a.timestamp ≤ b.timestamp) (pollerRun st l).2) ∧
    (∀ (last : BikeData) (l : List BikeData) (p : BikeData),
        p ∈ (pollerRun (some last) l).2 → last.timestamp ≤ p.timestamp) ∧
    (∀ last s : BikeData, s.timestamp < last.timestamp →
        pollerStep (some last) s = (some last, none)) := by
  refine ⟨fun st l => (pollerRun_spec l st).1,
          fun last l p hp => (pollerRun_spec l (some last)).2 last rfl p hp,
          fun last s hlt => ?_⟩
  have hacc : pollerAccept (some last) s = false := by
    simp only [pollerAccept, decide_eq_false_iff_not, not_le]
    exact hlt
  simp [pollerStep, hacc]

/-- Witness for C1: a late-arriving snapshot with timestamp 7 published
after one with timestamp 3 respects the bound, and a snapshot with
timestamp 3 offered while timestamp 7 is current is dropped with the prior
snapshot kept. -/
theorem poller_publishes_monotone_witness :
    snapEarly.timestamp ≤ snapLate.timestamp ∧
    pollerStep (some snapLate) snapEarly = (some snapLate, none) :=
  ⟨poller_publishes_monotone.2.1 snapEarly [snapLate] snapLate (by decide),
   poller_publishes_monotone.2.2 snapLate snapEarly (by decide)⟩

/-- Claim C7: the Poller's state machine has no terminal-failure state —
from Polling, every tick (fetch success or failure alike) leads back to
Polling, so any sequence of consecutive failed ticks leaves it Polling,
and the only way any mode reaches Idle is an explicit stop (or having been
Idle already). -/
theorem poller_no_terminal_failure :
    (∀ r : Bool, pollerModeStep .polling (.tick r) = .polling) ∧
    (∀ ticks : List Bool,
        List.foldl (fun m r => pollerModeStep m (.tick r)) .polling ticks = .polling) ∧
    (∀ (m : PollerMode) (e : PollerEvent),
        pollerModeStep m e = .idle → m = .idle ∨ e = .stop) := by
  refine ⟨fun r => by cases r <;> rfl, ?_, ?_⟩
  · intro ticks
    induction ticks with
    | nil => rfl
    | cons t rest ih =>
      cases t <;> simpa using ih
  · intro m e h
    cases m with
    | idle => exact Or.inl rfl
    | polling =>
      cases e with
      | start => simp [pollerModeStep] at h
      | tick s => simp [pollerModeStep] at h
      | stop => exact Or.inr rfl

/-- Witness for C7: stopping from Polling is the explicit-stop case of the
only-stop-reaches-Idle property. -/
theorem poller_no_terminal_failure_witness :
    PollerMode.polling = PollerMode.idle ∨ PollerEvent.stop = PollerEvent.stop :=
  poller_no_terminal_failure.2.2 .polling .stop (by decide)

/-- Claim C2: a click on the immobilize (resp. resume) button while `busy`
is true, or while the requested transition is a no-op given the snapshot's
immobilization state, is rejected immediately: the guard disables the
button, so no network call occurs and the control state is unchanged. -/
theorem securityClick_rejected_noop :
    ∀ (busy immobilized : Bool) (r : TransportResult),
      (busy = true ∨ immobilized = true →
        securityClick busy immobilized .immobilize r =
          { finalBusy := busy, callsMade := [], surfaced := none }) ∧
      (busy = true ∨ immobilized = false →
        securityClick busy immobilized .resume r =
          { finalBusy := busy, callsMade := [], surfaced := none }) := by
  intro busy immobilized r
  constructor
  · intro h
    have hg : immobilizeDisabled busy immobilized = true := by
      rcases h with h | h <;> simp [immobilizeDisabled, h]
    simp [securityClick, hg]
  · intro h
    have hg : resumeDisabled busy immobilized = true := by
      rcases h with h | h <;> simp [resumeDisabled, h]
    simp [securityClick, hg]

/-- Witness for C2: an immobilize request while a prior command is in
flight (`busy = true`) leaves everything untouched and sends nothing. -/
theorem securityClick_rejected_noop_witness :
    securityClick true false .immobilize .rejectedNet =
      { finalBusy := true, callsMade := [], surfaced := none } :=
  (securityClick_rejected_noop true false .rejectedNet).1 (Or.inl rfl)

/-- Counterexample to C3 as stated: a non-success HTTP response (status
400, controller body message "rejected by controller") is not mapped to an
outcome carrying the controller's message — the catch block substitutes
the fixed text — and the result is identical to the one produced by a pure
network failure, so the two cases are not distinguished. -/
theorem sendCommand_httpError_counterexample :
    sendCommand "immobilize"
        (.rejectedHttp 400 (.outcome "error" (some "rejected by controller"))) ≠
      Body.outcome "error" (some "rejected by controller") ∧
    sendCommand "immobilize"
        (.rejectedHttp 400 (.outcome "error" (some "rejected by controller"))) =
      sendCommand "immobilize" .rejectedNet := by
  exact ⟨by decide, rfl⟩

/-- Claim C3 (amended): `sendCommand` maps a non-success HTTP response to
a `status: 'error'` result carrying the fixed message
"Network or server error", identical to the transport-failure result, so
the two are not distinguished; the controller's own message is carried
only when the rejection arrives as a success (2xx) response whose body has
status "error", which is returned verbatim. -/
theorem sendCommand_httpError_generic :
    (∀ (a : String) (c : Nat) (b : Body),
        sendCommand a (.rejectedHttp c b) =
          .outcome "error" (some "Network or server error") ∧
        sendCommand a (.rejectedHttp c b) = sendCommand a .rejectedNet) ∧
    (∀ (a s : String) (m : Option String),
        sendCommand a (.resolved (.outcome s m)) = .outcome s m) :=
  ⟨fun _ _ _ => ⟨rfl, rfl⟩, fun _ _ _ => rfl⟩

/-- Counterexample to C4 as stated: a malformed payload delivered with a
success response is returned verbatim by `sendCommand`, carrying no error
status at all, so not every failure outcome yields an error-status result
with a cause message. -/
theorem sendCommand_malformed_counterexample :
    sendCommand "immobilize" (.resolved (.malformed "<html>Bad Gateway</html>")) =
      Body.malformed "<html>Bad Gateway</html>" ∧
    hasErrorStatus
      (sendCommand "immobilize" (.resolved (.malformed "<html>Bad Gateway</html>"))) =
        false ∧
    bodyMessage
      (sendCommand "immobilize" (.resolved (.malformed "<html>Bad Gateway</html>"))) =
        none :=
  ⟨rfl, rfl, rfl⟩

/-- Claim C4 (amended): for every input and transport outcome `sendCommand`
returns a result value (the try/catch lets no rejection escape); on
network failure, timeout, or a non-success response code the result is a
`status: 'error'` outcome with the non-empty human-readable message
"Network or server error"; a resolved success response's payload —
well-formed or malformed — is returned verbatim, without any error status
added. -/
theorem sendCommand_total_failure_mapping :
    (∀ (a : String) (r : TransportResult), ∃ b : Body, sendCommand a r = b) ∧
    (∀ a : String,
        sendCommand a .rejectedNet =
          .outcome "error" (some "Network or server error")) ∧
    (∀ (a : String) (c : Nat) (b : Body),
        sendCommand a (.rejectedHttp c b) =
          .outcome "error" (some "Network or server error")) ∧
    (∀ (a : String) (b : Body), sendCommand a (.resolved b) = b) ∧
    "Network or server error" ≠ "" :=
  ⟨fun _ r => ⟨_, rfl⟩, fun _ => rfl, fun _ _ _ => rfl, fun _ _ => rfl, by decide⟩

/-- Counterexample to C5 as stated: an accepted immobilize click whose
`sendCommand` resolution is the error outcome (here a transport failure
mapped to `status: 'error'`, message "Network or server error") surfaces
no message at all — the component discards the outcome — contradicting
the claim that the failure message string is surfaced to consumers. -/
theorem securityClick_no_message_counterexample :
    hasErrorStatus (sendCommand (actionName .immobilize) .rejectedNet) = true ∧
    (securityClick false false .immobilize .rejectedNet).surfaced = none ∧
    (securityClick false false .immobilize .rejectedNet).surfaced ≠
      some "Network or server error" :=
  ⟨rfl, rfl, by decide⟩

/-- Claim C5 (amended): on every resolution of an accepted command —
`CommandOutcome.Error`, `TransportError`, or success alike — the component
clears `pending` (`busy`) in its `finally` block, makes exactly one
network call per accepted click and never retries, and the displayed
immobilization value remains the last snapshot's (there is no optimistic
override to clear); the failure message, however, is discarded rather
than surfaced to consumers. -/
theorem securityClick_error_effect :
    ∀ r : TransportResult,
      securityClick false false .immobilize r =
        { finalBusy := false, callsMade := [.immobilize], surfaced := none } ∧
      securityClick false true .resume r =
        { finalBusy := false, callsMade := [.resume], surfaced := none } ∧
      (∀ (busy immobilized : Bool) (b : Action),
          (securityClick busy immobilized b r).callsMade.length ≤ 1) ∧
      (∀ busy bikeImmobilized : Bool,
          displayedImmobilized busy bikeImmobilized = bikeImmobilized) := by
  intro r
  refine ⟨rfl, rfl, ?_, fun _ _ => rfl⟩
  intro busy immobilized b
  cases b <;> simp only [securityClick] <;> split <;> simp

/-- Claim C6: at every point, the displayed immobilization value equals
`optimisticImmobilized` when that field is present and the last snapshot's
`immobilization_status` otherwise; in the code the component keeps no
optimistic field (it is constantly absent), so the displayed value is
always the snapshot's. -/
theorem displayedImmobilized_spec :
    ∀ busy bikeImmobilized : Bool,
      displayedImmobilized busy bikeImmobilized =
        securityOptimisticImmobilized.getD bikeImmobilized ∧
      securityOptimisticImmobilized = none :=
  fun _ _ => ⟨rfl, rfl⟩

/-- Claim C8: the map marker at `[gps_lat, gps_lon]` is rendered exactly
when both coordinates are non-null; whenever either coordinate is null or
absent — including a partially-present pair — the component renders the
"No GPS fix yet" view and no marker, without failing. -/
theorem bikeMapRender_spec :
    ∀ b : BikeData,
      (∀ lat lon : Rat, b.gps_lat = some lat → b.gps_lon = some lon →
          bikeMapRender (some b) = .marker lat lon) ∧
      (b.gps_lat = none ∨ b.gps_lon = none → bikeMapRender (some b) = .noFix) ∧
      ((∃ lat lon : Rat, bikeMapRender (some b) = .marker lat lon) ↔
          b.gps_lat ≠ none ∧ b.gps_lon ≠ none) := by
  intro b
  refine ⟨?_, ?_, ?_, ?_⟩
  · intro lat lon h1 h2
    simp [bikeMapRender, h1, h2]
  · intro h
    rcases h with h | h
    · simp [bikeMapRender, h]
    · cases hl : b.gps_lat <;> simp [bikeMapRender, hl, h]
  · rintro ⟨lat, lon, hm⟩
    cases hl : b.gps_lat <;> cases hn : b.gps_lon <;>
      simp [bikeMapRender, hl, hn] at hm ⊢
  · rintro ⟨h1, h2⟩
    cases hl : b.gps_lat with
    | none => exact absurd hl h1
    | some lat =>
      cases hn : b.gps_lon with
      | none => exact absurd hn h2
      | some lon => exact ⟨lat, lon, by simp [bikeMapRender, hl, hn]⟩

/-- Witness for C8: the snapshot with a fix at (37, -122) renders the
marker at exactly those coordinates. -/
theorem bikeMapRender_spec_witness :
    bikeMapRender (some snapWithFix) = MapView.marker 37 (-122) :=
  (bikeMapRender_spec snapWithFix).1 37 (-122) rfl rfl

/-- Claim C9: a `tire_pressure_kpa` of 0 renders the placeholder,
indistinguishable from an absent reading (neither yields a PSI value, both
are styled "ok"); for every non-zero reading the displayed rear-tire value
is the kPa value times 0.1450377 rounded to one decimal place, and the
warning style applies exactly when that rounded PSI value is below 28 or
above 40. -/
theorem tirePressure_display_spec :
    tirePressurePsi (some 0) = none ∧
    tirePressurePsi none = none ∧
    tireClass (some 0) = "ok" ∧
    tireClass none = "ok" ∧
    (∀ v : Rat, v ≠ 0 →
        tirePressurePsi (some v) = some (roundTo1 (v * kpaToPsi))) ∧
    (∀ v : Rat, v ≠ 0 →
        (tireClass (some v) = "warn" ↔
          roundTo1 (v * kpaToPsi) < 28 ∨ roundTo1 (v * kpaToPsi) > 40)) := by
  refine ⟨rfl, rfl, rfl, rfl, ?_, ?_⟩
  · intro v hv
    simp [tirePressurePsi, hv]
  · intro v hv
    have h1 : tireClass (some v) =
        if roundTo1 (v * kpaToPsi) < 28 ∨ roundTo1 (v * kpaToPsi) > 40
        then "warn" else "ok" := by
      simp [tireClass, tirePressurePsi, hv]
    rw [h1]
    by_cases h : roundTo1 (v * kpaToPsi) < 28 ∨ roundTo1 (v * kpaToPsi) > 40
    · simp [h]
    · simp [h]

/-- Witness for C9: the mock reading of 220 kPa displays as 31.9 PSI and
is not styled as a warning. -/
theorem tirePressure_display_spec_witness :
    tirePressurePsi (some 220) = some (roundTo1 (220 * kpaToPsi)) ∧
    (tireClass (some 220) = "warn" ↔
      roundTo1 (220 * kpaToPsi) < 28 ∨ roundTo1 (220 * kpaToPsi) > 40) :=
  ⟨tirePressure_display_spec.2.2.2.2.1 220 (by norm_num),
   tirePressure_display_spec.2.2.2.2.2 220 (by norm_num)⟩

/-- Claim C10: `handleLockToggle` changes only `security.status`
(swapping "Locked" and "Unlocked") and `handleEngineToggle` changes only
`security.engine` (swapping "On" and "Off"), every other field of the
dashboard state being left unchanged; on states whose toggled field holds
one of its two values, applying the same toggle twice restores the
original state. -/
theorem toggles_frame_involution :
    ∀ (L M A P : Type) (s : DashboardState L M A P),
      (handleLockToggle s).liveStatus = s.liveStatus ∧
      (handleLockToggle s).location = s.location ∧
      (handleLockToggle s).serviceAdvisor = s.serviceAdvisor ∧
      (handleLockToggle s).predictiveMaintenance = s.predictiveMaintenance ∧
      (handleLockToggle s).security.engine = s.security.engine ∧
      (handleLockToggle s).security.status =
        (if s.security.status = "Locked" then "Unlocked" else "Locked") ∧
      (handleEngineToggle s).liveStatus = s.liveStatus ∧
      (handleEngineToggle s).location = s.location ∧
      (handleEngineToggle s).serviceAdvisor = s.serviceAdvisor ∧
      (handleEngineToggle s).predictiveMaintenance = s.predictiveMaintenance ∧
      (handleEngineToggle s).security.status = s.security.status ∧
      (handleEngineToggle s).security.engine =
        (if s.security.engine = "On" then "Off" else "On") ∧
      (s.security.status = "Locked" ∨ s.security.status = "Unlocked" →
          handleLockToggle (handleLockToggle s) = s) ∧
      (s.security.engine = "On" ∨ s.security.engine = "Off" →
          handleEngineToggle (handleEngineToggle s) = s) := by
  intro L M A P s
  obtain ⟨ls, loc, ⟨st, en⟩, sa, pm⟩ := s
  refine ⟨rfl, rfl, rfl, rfl, rfl, rfl, rfl, rfl, rfl, rfl, rfl, rfl, ?_, ?_⟩
  · rintro (h | h) <;> subst h <;> rfl
  · rintro (h | h) <;> subst h <;> rfl

/-- Witness for C10: double lock-toggle on the initial mock state (status
"Locked", engine "Off") restores it. -/
theorem toggles_frame_involution_witness :
    handleLockToggle (handleLockToggle
      ({ liveStatus := 0, location := 0,
         security := { status := "Locked", engine := "Off" },
         serviceAdvisor := 0, predictiveMaintenance := 0 } :
        DashboardState Nat Nat Nat Nat)) =
      { liveStatus := 0, location := 0,
        security := { status := "Locked", engine := "Off" },
        serviceAdvisor := 0, predictiveMaintenance := 0 } :=
  (toggles_frame_involution Nat Nat Nat Nat
      _).2.2.2.2.2.2.2.2.2.2.2.2.1 (Or.inl rfl)

end Elita
